import Mathlib

/-!
Verification development for the `github-status-embed-for-discord` action.

The Python source (`github_status_embed/types.py`, `webhook.py`,
`__main__.py`) is shallowly embedded below:

* Python values that can appear in the argument dictionary (raw CLI
  strings or JSON-derived values injected by `PullRequest.from_payload`)
  are modelled by `JVal`.
* The argument dictionary (a Python `dict` keyed by `str`) is modelled as
  an association list `Arguments`; `dict.pop` removes the first (only)
  binding of a key, `dict.__setitem__` replaces it in place.
* Exceptions are modelled by `Except PyError`; the generic reflection
  loop of `TypedDataclass.from_arguments` is specialised, field by field
  and in declaration order, for the three concrete dataclasses.
* `requests.post` is modelled by passing in the `HttpResponse` the
  endpoint would return; `response.ok` follows the `requests` library
  (`raise_for_status` raises exactly for 400 ≤ status < 600).
* `json.loads` is modelled by a `parse` function parameter supplied to
  `PullRequest.from_payload`.

Widths/overflow do not arise (Python integers are unbounded, embedded as
`Int`); Python `str` length and slicing count code points, matching
`String.length` / `List Char` operations used here.
-/

/-- A JSON/Python value as it can occur in the argument dictionary:
CLI arguments are `str`; `PullRequest.from_payload` can inject values
taken from a parsed JSON document.  JSON numbers are embedded as `Int`
(the rendered documents never use fractional numbers). -/
inductive JVal where
  | null : JVal
  | bool : Bool → JVal
  | num : Int → JVal
  | str : String → JVal
  | arr : List JVal → JVal
  | obj : List (String × JVal) → JVal
deriving Repr

mutual
/-- Python `repr` of a JSON-derived value, used by `str()` on non-`str`
values (which is how an f-string renders them).  String quoting is the
common case (single quotes, no escaping of exotic characters). -/
def pyRepr : JVal → String
  | .null => "None"
  | .bool true => "True"
  | .bool false => "False"
  | .num n => toString n
  | .str s => "\x27" ++ s ++ "\x27"
  | .arr xs => "[" ++ pyReprList xs ++ "]"
  | .obj fs => "\x7b" ++ pyReprObj fs ++ "\x7d"

def pyReprList : List JVal → String
  | [] => ""
  | [x] => pyRepr x
  | x :: xs => pyRepr x ++ ", " ++ pyReprList xs

def pyReprObj : List (String × JVal) → String
  | [] => ""
  | [(k, v)] => "\x27" ++ k ++ "\x27: " ++ pyRepr v
  | (k, v) :: fs => "\x27" ++ k ++ "\x27: " ++ pyRepr v ++ ", " ++ pyReprObj fs
end

/-- Python `str()` of a value (identity on `str`, `repr`-like otherwise),
as used by the f-string in the `InvalidArgument` message and by the
`str` type conversion in `from_arguments`. -/
def pyStr : JVal → String
  | .str s => s
  | v => pyRepr v

/-- Python truthiness of a JSON-derived value (`if not payload: ...`). -/
def JVal.truthy : JVal → Bool
  | .null => false
  | .bool b => b
  | .num n => n != 0
  | .str s => s != ""
  | .arr xs => !xs.isEmpty
  | .obj fs => !fs.isEmpty

/-- The exceptions the embedded code can raise.  `MissingArgument` and
`InvalidArgument` are the two `TypeError` subclasses declared in
`types.py`; `keyError`/`typeError`/`attributeError` model the built-in
exceptions uncaught paths would raise. -/
inductive PyError where
  | missingArgument : String → PyError
  | invalidArgument : String → PyError
  | keyError : PyError
  | typeError : PyError
  | attributeError : PyError
deriving Repr, DecidableEq

/-- The argument dictionary handed to the dataclass constructors
(`arguments` in `__main__.py`): an association list from argument name
to value.  Python dict keys are unique; theorems that rely on it take a
`keysNodup` hypothesis. -/
abbrev Arguments := List (String × JVal)

/-- `arguments.pop(key, None)`: value of the first binding of `key` (or
`none`) together with the dictionary with that binding removed. -/
def popArg (key : String) : Arguments → Option JVal × Arguments
  | [] => (none, [])
  | p :: rest =>
    if p.1 == key then (some p.2, rest)
    else
      let r := popArg key rest
      (r.1, p :: r.2)

/-- `arguments.get(key)` / `arguments[key]` lookup (first binding). -/
def lookupArg (args : Arguments) (key : String) : Option JVal :=
  (args.find? (fun p => p.1 == key)).map (fun p => p.2)

/-- `arguments[key] = v`: replace the binding in place, or append. -/
def setArg (args : Arguments) (key : String) (v : JVal) : Arguments :=
  match args with
  | [] => [(key, v)]
  | p :: rest => if p.1 == key then (key, v) :: rest else p :: setArg rest key v

/-- Python `value == ""`: true exactly for the empty `str` (comparing a
non-`str` value with `""` is `False`, never an error). -/
def pyEqEmptyStr : JVal → Bool
  | .str s => s == ""
  | _ => false

/-- `arguments.get(attr, "") == ""` from the optional-dataclass check. -/
def isEmptyArg (args : Arguments) (key : String) : Bool :=
  match lookupArg args key with
  | none => true
  | some v => pyEqEmptyStr v

/-- The dictionary keys are pairwise distinct (always true of a Python
dict). -/
def keysNodup (args : Arguments) : Prop := (args.map Prod.fst).Nodup

/-- Python `int(s)` on a string: optional surrounding whitespace,
optional sign, at least one decimal digit.  (Underscore digit grouping,
accepted by Python, is not modelled; it cannot occur in the inputs the
action receives.) -/
def pyParseInt (s : String) : Option Int :=
  let t := ((s.data.dropWhile Char.isWhitespace).reverse.dropWhile Char.isWhitespace).reverse
  let signed : Int × List Char :=
    match t with
    | '-' :: rest => (-1, rest)
    | '+' :: rest => (1, rest)
    | l => (1, l)
  if signed.2 ≠ [] ∧ signed.2.all Char.isDigit then
    some (signed.1 * (signed.2.foldl (fun acc c => 10 * acc + (c.toNat - '0'.toNat)) 0 : Nat))
  else
    none

/-- `WorkflowStatus`, an `enum.Enum` with three members. -/
inductive WorkflowStatus where
  | SUCCESS : WorkflowStatus
  | FAILURE : WorkflowStatus
  | CANCELLED : WorkflowStatus
deriving Repr, DecidableEq

/-- The `verb` entry of the member's value dictionary. -/
def WorkflowStatus.verb : WorkflowStatus → String
  | .SUCCESS => "succeeded"
  | .FAILURE => "failed"
  | .CANCELLED => "was cancelled"

/-- The `adjective` entry of the member's value dictionary. -/
def WorkflowStatus.adjective : WorkflowStatus → String
  | .SUCCESS => "Successful"
  | .FAILURE => "Failed"
  | .CANCELLED => "Cancelled"

/-- The `color` entry of the member's value dictionary. -/
def WorkflowStatus.color : WorkflowStatus → Nat
  | .SUCCESS => 38912
  | .FAILURE => 16525609
  | .CANCELLED => 6702148

/-- Python `s.upper()` (the inputs are ASCII; `Char.toUpper` matches
Python's behaviour there). -/
def pyUpper (s : String) : String := String.mk (s.data.map Char.toUpper)

/-- `WorkflowStatus[name]`: enum member lookup by (exact) member name,
`KeyError` modelled as `none`. -/
def statusOfName (s : String) : Option WorkflowStatus :=
  if s = "SUCCESS" then some .SUCCESS
  else if s = "FAILURE" then some .FAILURE
  else if s = "CANCELLED" then some .CANCELLED
  else none

/-- The message of `InvalidArgument` raised by `from_arguments`:
`f"invalid value for \x60{attribute}\x60: {value}"` (the f-string
renders the offending value with `str()`). -/
def invalidMsg (attr : String) (value : JVal) : String :=
  "invalid value for `" ++ attr ++ "`: " ++ pyStr value

/-- One `from_arguments` conversion step for a `str`-annotated field:
`str(value)` always succeeds, but a zero-length result is rejected
(`isinstance(value, collections.Sized) and len(value) == 0`). -/
def convertStr (attr : String) (value : JVal) : Except PyError String :=
  let s := pyStr value
  if s = "" then .error (.invalidArgument (invalidMsg attr value)) else .ok s

/-- One `from_arguments` conversion step for an `int`-annotated field:
`int(value)`; a failing string parse is `ValueError`→`InvalidArgument`,
`int` and `bool` convert, other types raise an uncaught `TypeError`. -/
def convertInt (attr : String) (value : JVal) : Except PyError Int :=
  match value with
  | .str s =>
    match pyParseInt s with
    | some n => .ok n
    | none => .error (.invalidArgument (invalidMsg attr value))
  | .num n => .ok n
  | .bool b => .ok (if b then 1 else 0)
  | _ => .error .typeError

/-- One `from_arguments` conversion step for the enum-annotated field:
`WorkflowStatus[value.upper()]`; `KeyError`→`InvalidArgument`; a
non-`str` value has no `.upper`, raising an uncaught `AttributeError`. -/
def convertStatus (attr : String) (value : JVal) : Except PyError WorkflowStatus :=
  match value with
  | .str s =>
    match statusOfName (pyUpper s) with
    | some st => .ok st
    | none => .error (.invalidArgument (invalidMsg attr value))
  | _ => .error .attributeError

/-- `value = arguments.pop(attribute, None); if value is None: raise
MissingArgument(attribute)` — an absent key and a present `None` value
are indistinguishable here. -/
def popField (attr : String) (args : Arguments) : Except PyError (JVal × Arguments) :=
  match popArg attr args with
  | (none, _) => .error (.missingArgument attr)
  | (some .null, _) => .error (.missingArgument attr)
  | (some v, rest) => .ok (v, rest)

/-- Pop-then-convert for a `str` field (one iteration of the
`from_arguments` attribute loop). -/
def takeStr (attr : String) (args : Arguments) : Except PyError (String × Arguments) := do
  let (v, rest) ← popField attr args
  let s ← convertStr attr v
  .ok (s, rest)

/-- Pop-then-convert for an `int` field. -/
def takeInt (attr : String) (args : Arguments) : Except PyError (Int × Arguments) := do
  let (v, rest) ← popField attr args
  let n ← convertInt attr v
  .ok (n, rest)

/-- Pop-then-convert for the `WorkflowStatus` field. -/
def takeStatus (attr : String) (args : Arguments) : Except PyError (WorkflowStatus × Arguments) := do
  let (v, rest) ← popField attr args
  let st ← convertStatus attr v
  .ok (st, rest)

/-- `MIN_EMBED_FIELD_LENGTH` from `types.py`. -/
def MIN_EMBED_FIELD_LENGTH : Nat := 20

/-- Python slicing `s[:n]` (by code points, like `len`). -/
def pyTake (s : String) (n : Nat) : String := String.mk (s.data.take n)

/-- Python `s.removeprefix(pre)`: drop `pre` when it is a leading
segment of `s`, otherwise return `s` unchanged. -/
def pyRemoveLeading (s pre : String) : String :=
  if pre.data.isPrefixOf s.data then String.mk (s.data.drop pre.data.length) else s

/-- Python `s.replace("\\", "\\\\")`: double every backslash. -/
def pyDoubleBackslashes (s : String) : String :=
  String.mk (s.data.foldr (fun c acc => if c = '\\' then '\\' :: '\\' :: acc else c :: acc) [])

/-- The `Workflow` frozen dataclass. -/
structure Workflow where
  workflow_name : String
  run_id : Int
  run_number : Int
  status : WorkflowStatus
  repository : String
  actor : String
  ref : String
  sha : String
deriving Repr, DecidableEq

/-- `Workflow.url`: `f"https://github.com/{repository}/actions/runs/{run_id}"`. -/
def Workflow.url (w : Workflow) : String :=
  "https://github.com/" ++ w.repository ++ "/actions/runs/" ++ toString w.run_id

/-- `Workflow.actor_url`: `f"https://github.com/{actor}"`. -/
def Workflow.actor_url (w : Workflow) : String :=
  "https://github.com/" ++ w.actor

/-- `Workflow.short_sha`: `sha[:7]`. -/
def Workflow.short_sha (w : Workflow) : String := pyTake w.sha 7

/-- `Workflow.commit_url`: `f"https://github.com/{repository}/commit/{sha}"`. -/
def Workflow.commit_url (w : Workflow) : String :=
  "https://github.com/" ++ w.repository ++ "/commit/" ++ w.sha

/-- `Workflow.repository_owner`: the part of `repository` before the
first `/` (`str.partition` keeps the whole string when `/` is absent). -/
def Workflow.repository_owner (w : Workflow) : String :=
  String.mk (w.repository.data.takeWhile (fun c => c ≠ '/'))

/-- `Workflow.from_arguments`: the `TypedDataclass` reflection loop
specialised to `Workflow`'s eight annotated fields, in declaration
order.  On success it returns the instance together with the mutated
argument dictionary (each consumed key popped). -/
def Workflow.from_arguments (args : Arguments) : Except PyError (Workflow × Arguments) := do
  let (workflow_name, args) ← takeStr "workflow_name" args
  let (run_id, args) ← takeInt "run_id" args
  let (run_number, args) ← takeInt "run_number" args
  let (status, args) ← takeStatus "status" args
  let (repository, args) ← takeStr "repository" args
  let (actor, args) ← takeStr "actor" args
  let (ref, args) ← takeStr "ref" args
  let (sha, args) ← takeStr "sha" args
  .ok (⟨workflow_name, run_id, run_number, status, repository, actor, ref, sha⟩, args)

/-- The `Webhook` frozen dataclass. -/
structure Webhook where
  webhook_id : Int
  webhook_token : String
deriving Repr, DecidableEq

/-- `Webhook.url`: the Discord endpoint for this webhook. -/
def Webhook.url (wh : Webhook) : String :=
  "https://canary.discord.com/api/webhooks/" ++ toString wh.webhook_id ++ "/" ++ wh.webhook_token

/-- `Webhook.from_arguments`: the reflection loop specialised to
`Webhook`'s two annotated fields. -/
def Webhook.from_arguments (args : Arguments) : Except PyError (Webhook × Arguments) := do
  let (webhook_id, args) ← takeInt "webhook_id" args
  let (webhook_token, args) ← takeStr "webhook_token" args
  .ok (⟨webhook_id, webhook_token⟩, args)

/-- The `PullRequest` frozen dataclass (`optional=True`). -/
structure PullRequest where
  pr_author_login : String
  pr_number : Int
  pr_title : String
  pr_source : String
deriving Repr, DecidableEq

/-- The annotated field names of `PullRequest`, in declaration order. -/
def prFields : List String := ["pr_author_login", "pr_number", "pr_title", "pr_source"]

/-- The annotated field names of `Workflow`, in declaration order. -/
def workflowFields : List String :=
  ["workflow_name", "run_id", "run_number", "status", "repository", "actor", "ref", "sha"]

/-- The annotated field names of `Webhook`, in declaration order. -/
def webhookFields : List String := ["webhook_id", "webhook_token"]

/-- `PullRequest.from_arguments`: because the class is optional, when
every field is absent-or-empty (`arguments.get(attr, "") == ""`) the
result is `None` and the dictionary is untouched; otherwise the
reflection loop runs over the four fields. -/
def PullRequest.from_arguments (args : Arguments) :
    Except PyError (Option PullRequest × Arguments) :=
  if prFields.all (fun f => isEmptyArg args f) then
    .ok (none, args)
  else do
    let (pr_author_login, args) ← takeStr "pr_author_login" args
    let (pr_number, args) ← takeInt "pr_number" args
    let (pr_title, args) ← takeStr "pr_title" args
    let (pr_source, args) ← takeStr "pr_source" args
    .ok (some ⟨pr_author_login, pr_number, pr_title, pr_source⟩, args)

/-- `payload.get(key, default)` on a parsed JSON value: only a JSON
object has `.get`; everything else raises `AttributeError`. -/
def jGetD (v : JVal) (key : String) (dflt : JVal) : Except PyError JVal :=
  match v with
  | .obj fs => .ok (((fs.find? (fun p => p.1 == key)).map (fun p => p.2)).getD dflt)
  | _ => .error .attributeError

/-- `if isinstance(payload, list): payload = payload[0] if payload else
\x7b\x7d`. -/
def listExtract : JVal → JVal
  | .arr [] => .obj []
  | .arr (x :: _) => x
  | v => v

/-- The four target arguments `from_payload` reads off the parsed
payload: `user.login`, `number`, `title`, `head.label`, each defaulting
to the empty string / empty dict exactly as the chained `.get` calls
do. -/
def extractPRFields (payload : JVal) : Except PyError (JVal × JVal × JVal × JVal) := do
  let user ← jGetD payload "user" (.obj [])
  let login ← jGetD user "login" (.str "")
  let number ← jGetD payload "number" (.str "")
  let title ← jGetD payload "title" (.str "")
  let head ← jGetD payload "head" (.obj [])
  let label ← jGetD head "label" (.str "")
  .ok (login, number, title, label)

/-- `arguments.pop('pull_request_payload')` — no default, so an absent
key raises `KeyError`. -/
def popPayloadKey (args : Arguments) : Except PyError (JVal × Arguments) :=
  match popArg "pull_request_payload" args with
  | (none, _) => .error .keyError
  | (some v, rest) => .ok (v, rest)

/-- `PullRequest.from_payload`.  `json.loads` is supplied as the `parse`
parameter (`.error` = `JSONDecodeError`); the raw argument string first
has its backslashes doubled.  A parse failure yields an empty payload; a
list payload is replaced by its first element (or an empty payload); a
falsy payload falls back to `from_arguments` on the remaining
arguments; otherwise the four `pr_*` arguments are overwritten from the
payload and `from_arguments` runs on the result. -/
def PullRequest.from_payload (parse : String → Except Unit JVal) (args : Arguments) :
    Except PyError (Option PullRequest × Arguments) := do
  let (raw, args) ← popPayloadKey args
  let rawStr ← (match raw with
    | .str s => Except.ok (pyDoubleBackslashes s)
    | _ => Except.error PyError.attributeError)
  let payload := match parse rawStr with
    | .error _ => JVal.obj []
    | .ok v => v
  let payload := listExtract payload
  if payload.truthy = false then
    PullRequest.from_arguments args
  else do
    let (login, number, title, label) ← extractPRFields payload
    let args := setArg args "pr_author_login" login
    let args := setArg args "pr_number" number
    let args := setArg args "pr_title" title
    let args := setArg args "pr_source" label
    PullRequest.from_arguments args

/-- An embed field of the webhook payload (`EmbedField` TypedDict). -/
structure EmbedField where
  name : String
  value : String
  inline : Bool
deriving Repr, DecidableEq

/-- The subset of the `Embed` TypedDict the renderer populates. -/
structure Embed where
  title : String
  description : String
  url : String
  color : Nat
  fields : List EmbedField
deriving Repr, DecidableEq

/-- The subset of the `WebhookPayload` TypedDict the renderer populates. -/
structure WebhookPayload where
  username : String
  avatar_url : String
  embeds : List Embed
deriving Repr, DecidableEq

/-- `WEBHOOK_USERNAME` from `webhook.py`. -/
def WEBHOOK_USERNAME : String := "GitHub Actions"

/-- `WEBHOOK_AVATAR_URL` from `webhook.py`. -/
def WEBHOOK_AVATAR_URL : String :=
  "https://raw.githubusercontent.com/SebastiaanZ/github-status-embed-for-discord/main/github_actions_avatar.png"

/-- `FIELD_CHARACTER_BUDGET` from `webhook.py`. -/
def FIELD_CHARACTER_BUDGET : Nat := 60

/-- `EMBED_DESCRIPTION.format(run_id=..., run_url=..., status_verb=...)`:
the template `"GitHub Actions run [{run_id}]({run_url}) {status_verb}."`
with its three placeholders substituted. -/
def embedDescription (run_id : Int) (run_url status_verb : String) : String :=
  "GitHub Actions run [" ++ toString run_id ++ "](" ++ run_url ++ ") " ++ status_verb ++ "."

/-- `f"{workflow.name} #{workflow.number}"` as computed in
`get_payload_pull_request`. -/
def workflowNumberStr (w : Workflow) : String :=
  w.workflow_name ++ " #" ++ toString w.run_number

/-- `characters_left = FIELD_CHARACTER_BUDGET - len(author) -
len(workflow_number)` — an `Int`, because in Python this subtraction can
go negative. -/
def charactersLeft (w : Workflow) (pr : PullRequest) : Int :=
  (FIELD_CHARACTER_BUDGET : Int) - pr.pr_author_login.length - (workflowNumberStr w).length

/-- `PullRequest.shortened_source(length, owner)`: strip a truthy
`owner` prefix `f"{owner}:"`, clamp the length to
`MIN_EMBED_FIELD_LENGTH`, and truncate with `"..."` when the remaining
label is longer than the clamped length. -/
def shortened_source (pr : PullRequest) (length : Int) (owner : Option String) : String :=
  let pr_source :=
    match owner with
    | some o => if o = "" then pr.pr_source else pyRemoveLeading pr.pr_source (o ++ ":")
    | none => pr.pr_source
  let n : Nat := if (MIN_EMBED_FIELD_LENGTH : Int) ≤ length then length.toNat else MIN_EMBED_FIELD_LENGTH
  if n < pr_source.length then pyTake pr_source (n - 3) ++ "..." else pr_source

/-- `get_payload(workflow)`: the generic-run webhook payload. -/
def get_payload (w : Workflow) : WebhookPayload :=
  { username := WEBHOOK_USERNAME
    avatar_url := WEBHOOK_AVATAR_URL
    embeds := [
      { title := "[" ++ w.repository ++ "] Workflow " ++ w.status.adjective
        description := embedDescription w.run_id w.url w.status.verb
        url := w.url
        color := w.status.color
        fields := [
          { name := "Actor"
            value := "[" ++ w.actor ++ "](" ++ w.actor_url ++ ")"
            inline := true },
          { name := "Workflow Run"
            value := "[" ++ w.workflow_name ++ " #" ++ toString w.run_number ++ "](" ++ w.url ++ ")"
            inline := true },
          { name := "Commit"
            value := "[" ++ w.short_sha ++ "](" ++ w.commit_url ++ ")"
            inline := true }] }] }

/-- `get_payload_pull_request(workflow, pull_request)`: the PR webhook
payload. -/
def get_payload_pull_request (w : Workflow) (pr : PullRequest) : WebhookPayload :=
  { username := WEBHOOK_USERNAME
    avatar_url := WEBHOOK_AVATAR_URL
    embeds := [
      { title := "[" ++ w.repository ++ "] Checks " ++ w.status.adjective ++ " on PR: #"
          ++ toString pr.pr_number ++ " " ++ pr.pr_title
        description := embedDescription w.run_id w.url w.status.verb
        url := "https://github.com/" ++ w.repository ++ "/pull/" ++ toString pr.pr_number
        color := w.status.color
        fields := [
          { name := "PR Author"
            value := "[" ++ pr.pr_author_login ++ "](https://github.com/" ++ pr.pr_author_login ++ ")"
            inline := true },
          { name := "Workflow Run"
            value := "[" ++ workflowNumberStr w ++ "](" ++ w.url ++ ")"
            inline := true },
          { name := "Source Branch"
            value := shortened_source pr (charactersLeft w pr) (some w.repository_owner)
            inline := true }] }] }

/-- The HTTP response `requests.post` returns. -/
structure HttpResponse where
  status_code : Nat
  reason : String
deriving Repr, DecidableEq

/-- `response.ok` per the `requests` library: `raise_for_status` raises
`HTTPError` exactly for client errors (400–499) and server errors
(500–599), so `ok` is false exactly on 400 ≤ status < 600. -/
def responseOk (r : HttpResponse) : Bool :=
  !(400 ≤ r.status_code && r.status_code < 600)

/-- Observable outcome of `send_webhook`: whether a POST was issued (and
to which URL with which payload), what was printed to stdout, and the
returned boolean. -/
structure DeliveryResult where
  posted : Option (String × WebhookPayload)
  printed : List String
  ok : Bool
deriving Repr, DecidableEq

/-- `send_webhook(workflow, webhook, pull_request, dry_run)`.  The
response the endpoint would give is passed in as `r`; it is only
consulted when a POST is actually issued. -/
def send_webhook (workflow : Workflow) (webhook : Webhook) (pull_request : Option PullRequest)
    (dry_run : Bool) (r : HttpResponse) : DeliveryResult :=
  let payload :=
    match pull_request with
    | none => get_payload workflow
    | some pr => get_payload_pull_request workflow pr
  if dry_run then
    { posted := none, printed := [], ok := true }
  else if responseOk r then
    { posted := some (webhook.url, payload)
      printed := ["[status: " ++ toString r.status_code ++ "] Successfully delivered webhook payload!"]
      ok := true }
  else
    { posted := some (webhook.url, payload)
      printed := ["::error::Discord webhook delivery failed! (status: " ++ toString r.status_code
        ++ "; reason: " ++ r.reason ++ ")"]
      ok := false }

/-- The `__main__` pipeline after CLI parsing: build `Workflow`,
`Webhook` and (payload or argument based) `PullRequest` from the one
argument dictionary, then call `send_webhook`.  Any constructor
exception propagates and no POST happens. -/
def runAction (parse : String → Except Unit JVal) (args : Arguments) (dry_run : Bool)
    (r : HttpResponse) : Except PyError DeliveryResult := do
  let (workflow, args) ← Workflow.from_arguments args
  let (webhook, args) ← Webhook.from_arguments args
  let (pull_request, _) ←
    (match lookupArg args "pull_request_payload" with
     | some v => if v.truthy then PullRequest.from_payload parse args
                 else PullRequest.from_arguments args
     | none => PullRequest.from_arguments args)
  .ok (send_webhook workflow webhook pull_request dry_run r)

/-- The network call (if any) an action run performs: an exception
before delivery means no POST was issued. -/
def networkCall (res : Except PyError DeliveryResult) : Option (String × WebhookPayload) :=
  match res with
  | .error _ => none
  | .ok d => d.posted

/-- The source label after the owner-prefix strip performed inside
`shortened_source` when called from `get_payload_pull_request` (the
`owner` argument is `workflow.repository_owner`, stripped only when
truthy). -/
def strippedSource (w : Workflow) (pr : PullRequest) : String :=
  if w.repository_owner = "" then pr.pr_source
  else pyRemoveLeading pr.pr_source (w.repository_owner ++ ":")

/-- The character budget after clamping to `MIN_EMBED_FIELD_LENGTH`. -/
def clampedBudget (w : Workflow) (pr : PullRequest) : Nat :=
  if (MIN_EMBED_FIELD_LENGTH : Int) ≤ charactersLeft w pr then (charactersLeft w pr).toNat
  else MIN_EMBED_FIELD_LENGTH

/-- The value rendered into the `Source Branch` field of the PR
document. -/
def sourceBranchValue (w : Workflow) (pr : PullRequest) : String :=
  shortened_source pr (charactersLeft w pr) (some w.repository_owner)

/-- The values of all fields named `Source Branch` across all embeds of
a payload (used to tie `sourceBranchValue` to the rendered document). -/
def sourceBranchEntries (p : WebhookPayload) : List String :=
  (p.embeds.map (fun e => (e.fields.filter (fun f => f.name == "Source Branch")).map
    (fun f => f.value))).flatten

/-- Python `s.endswith(t)` (used only in statements, not by the code). -/
def pyEndsWith (s t : String) : Bool := t.data.isSuffixOf s.data

/-- `payload.get(key, '')` as claim C9 words it: keys of anything that
is not an object are simply "missing" and default to the empty string. -/
def claimGet (v : JVal) (key : String) : JVal :=
  match v with
  | .obj fs => (((fs.find? (fun p => p.1 == key)).map (fun p => p.2)).getD (.str ""))
  | _ => .str ""

/-- Modelled from the claim wording of C9 (spec document, §implicit):
"if the pull_request_payload string is not parseable as JSON, or parses
to an empty object or empty list, it delegates to from_arguments on the
remaining individual pr_* arguments; if it parses to a non-empty list,
the first element is used as the payload; otherwise the four PR fields
are taken from the payload's user.login, number, title, and head.label
keys, with missing keys treated as empty strings."  This definition is
the comparison point for the refinement check; `PullRequest.from_payload`
above is the translation of the code. -/
def fromPayloadClaim (parse : String → Except Unit JVal) (args : Arguments) :
    Except PyError (Option PullRequest × Arguments) := do
  let (raw, args) ← popPayloadKey args
  let rawStr ← (match raw with
    | .str s => Except.ok (pyDoubleBackslashes s)
    | _ => Except.error PyError.attributeError)
  match parse rawStr with
  | .error _ => PullRequest.from_arguments args
  | .ok v =>
    match v with
    | .obj [] => PullRequest.from_arguments args
    | .arr [] => PullRequest.from_arguments args
    | v =>
      let payload := match v with | .arr (x :: _) => x | w => w
      let args := setArg args "pr_author_login" (claimGet (claimGet payload "user") "login")
      let args := setArg args "pr_number" (claimGet payload "number")
      let args := setArg args "pr_title" (claimGet payload "title")
      let args := setArg args "pr_source" (claimGet (claimGet payload "head") "label")
      PullRequest.from_arguments args

/-- C3 (counterexample): the claim states the Success color is
`0x00980` "(38912)", but `0x00980 = 2432` while the code's Success color
is `38912 = 0x9800`; the two numbers the claim equates are different, so
the claim as stated is false. -/
theorem C3_counterexample :
    WorkflowStatus.SUCCESS.color = 38912 ∧ WorkflowStatus.SUCCESS.color ≠ 0x980 := by
  decide

/-- C3 (amended): for every `WorkflowStatus` value, the verb, adjective
and color are exactly those of the fixed table — Success: "succeeded" /
"Successful" / 0x9800 (38912); Failure: "failed" / "Failed" / 16525609;
Cancelled: "was cancelled" / "Cancelled" / 6702148 — and every rendered
document's color equals the status color. -/
theorem C3_status_table_and_colors :
    (WorkflowStatus.SUCCESS.verb = "succeeded" ∧ WorkflowStatus.SUCCESS.adjective = "Successful"
      ∧ WorkflowStatus.SUCCESS.color = 0x9800 ∧ WorkflowStatus.SUCCESS.color = 38912)
    ∧ (WorkflowStatus.FAILURE.verb = "failed" ∧ WorkflowStatus.FAILURE.adjective = "Failed"
      ∧ WorkflowStatus.FAILURE.color = 16525609)
    ∧ (WorkflowStatus.CANCELLED.verb = "was cancelled"
      ∧ WorkflowStatus.CANCELLED.adjective = "Cancelled"
      ∧ WorkflowStatus.CANCELLED.color = 6702148)
    ∧ (∀ w : Workflow, (get_payload w).embeds.map Embed.color = [w.status.color])
    ∧ (∀ (w : Workflow) (pr : PullRequest),
        (get_payload_pull_request w pr).embeds.map Embed.color = [w.status.color]) :=
  ⟨⟨rfl, rfl, rfl, rfl⟩, ⟨rfl, rfl, rfl⟩, ⟨rfl, rfl, rfl⟩,
    fun _ => rfl, fun _ _ => rfl⟩

/-- C4: for every `Workflow`, the generic-run document has exactly the
three inline entries Actor, Workflow Run, Commit in that order (with the
documented link markup as values), its description is the
`EMBED_DESCRIPTION` template with run id, run url and status verb
substituted, and the non-dry-run delivery of a run without a pull
request POSTs exactly this payload to the webhook URL. -/
theorem C4_generic_run_document : ∀ w : Workflow,
    ((get_payload w).embeds.map (fun e => e.fields.map (fun f => (f.name, f.value, f.inline)))) =
      [[("Actor", "[" ++ w.actor ++ "](" ++ w.actor_url ++ ")", true),
        ("Workflow Run",
          "[" ++ w.workflow_name ++ " #" ++ toString w.run_number ++ "](" ++ w.url ++ ")", true),
        ("Commit", "[" ++ w.short_sha ++ "](" ++ w.commit_url ++ ")", true)]]
    ∧ (get_payload w).embeds.map Embed.description
        = [embedDescription w.run_id w.url w.status.verb]
    ∧ ∀ (wh : Webhook) (r : HttpResponse),
        (send_webhook w wh none false r).posted = some (wh.url, get_payload w) := by
  intro w
  refine ⟨rfl, rfl, fun wh r => ?_⟩
  simp only [send_webhook, Bool.false_eq_true, if_false]
  split <;> rfl

/-- C6: in dry-run mode the delivery client issues no POST and returns
`true`, for every workflow, webhook, optional pull request and would-be
response. -/
theorem C6_dry_run_no_network : ∀ (w : Workflow) (wh : Webhook) (pr : Option PullRequest)
    (r : HttpResponse),
    (send_webhook w wh pr true r).posted = none ∧ (send_webhook w wh pr true r).ok = true :=
  fun _ _ _ _ => ⟨rfl, rfl⟩

/-- C5 (counterexample): a 304 response is not a 2xx status, yet
`send_webhook` returns `response.ok = True` and prints the success
confirmation, so "every non-2xx response yields false" is false. -/
theorem C5_counterexample :
    (304 < 200 ∨ 300 ≤ 304)
    ∧ (send_webhook ⟨"CI", 1, 2, .SUCCESS, "o/r", "me", "main", "abcdef0"⟩ ⟨1, "t"⟩ none false
        ⟨304, "Not Modified"⟩).ok = true := by
  constructor
  · right; decide
  · rfl

/-- C5 (amended): the delivery client reports failure exactly for the
statuses `requests.Response.ok` rejects — 400 ≤ status < 600 — printing
the GitHub Actions `::error::` annotation with status code and reason;
for every other status it reports success and prints a confirmation
with the status code. -/
theorem C5_delivery_report : ∀ (w : Workflow) (wh : Webhook) (pr : Option PullRequest)
    (r : HttpResponse),
    (400 ≤ r.status_code ∧ r.status_code < 600 →
      (send_webhook w wh pr false r).ok = false
      ∧ (send_webhook w wh pr false r).printed
          = ["::error::Discord webhook delivery failed! (status: " ++ toString r.status_code
              ++ "; reason: " ++ r.reason ++ ")"])
    ∧ (¬(400 ≤ r.status_code ∧ r.status_code < 600) →
      (send_webhook w wh pr false r).ok = true
      ∧ (send_webhook w wh pr false r).printed
          = ["[status: " ++ toString r.status_code ++ "] Successfully delivered webhook payload!"]) := by
  intro w wh pr r
  constructor
  · intro h
    have hb : responseOk r = false := by
      simp only [responseOk, Bool.not_eq_false', Bool.and_eq_true, decide_eq_true_eq]
      omega
    simp [send_webhook, hb]
  · intro h
    have hb : responseOk r = true := by
      simp only [responseOk, Bool.not_eq_true', Bool.and_eq_false_iff, decide_eq_false_iff_not]
      omega
    simp [send_webhook, hb]

/-- C5 (witness): a simulated 500 response yields failure and the error
annotation containing status code and reason. -/
theorem C5_witness :
    (send_webhook ⟨"CI", 1, 2, .SUCCESS, "o/r", "me", "main", "abcdef0"⟩ ⟨1, "t"⟩ none false
        ⟨500, "Internal Server Error"⟩).ok = false
    ∧ (send_webhook ⟨"CI", 1, 2, .SUCCESS, "o/r", "me", "main", "abcdef0"⟩ ⟨1, "t"⟩ none false
        ⟨500, "Internal Server Error"⟩).printed
      = ["::error::Discord webhook delivery failed! (status: " ++ toString (500 : Nat)
          ++ "; reason: " ++ "Internal Server Error" ++ ")"] :=
  (C5_delivery_report ⟨"CI", 1, 2, .SUCCESS, "o/r", "me", "main", "abcdef0"⟩ ⟨1, "t"⟩ none
    ⟨500, "Internal Server Error"⟩).1 (by constructor <;> decide)

theorem length_pyTake (s : String) (n : Nat) : (pyTake s n).length = min n s.length := by
  show (s.data.take n).length = min n s.data.length
  exact List.length_take n s.data

theorem endsWith_append (a b : String) : pyEndsWith (a ++ b) b = true := by
  rw [pyEndsWith, String.data_append]
  simp [List.isSuffixOf]

theorem clampedBudget_ge (w : Workflow) (pr : PullRequest) : 20 ≤ clampedBudget w pr := by
  unfold clampedBudget MIN_EMBED_FIELD_LENGTH
  split <;> omega

theorem sourceBranchValue_eq (w : Workflow) (pr : PullRequest) :
    sourceBranchValue w pr
      = if clampedBudget w pr < (strippedSource w pr).length
        then pyTake (strippedSource w pr) (clampedBudget w pr - 3) ++ "..."
        else strippedSource w pr := rfl

/-- C1 (amended): the Source Branch entry of the PR document is the
source label with the owner prefix stripped, truncated to (budget − 3)
characters plus `"..."` when it exceeds the clamped budget (60 − author
− workflow-number lengths, floored at 20).  The rendered value never
exceeds the clamped budget; if truncation occurred the value ends in
`"..."` (and its length is exactly the budget); if no truncation
occurred the value is the stripped label itself (which may happen to end
in `"..."` on its own — the claim's "only if" direction fails there). -/
theorem C1_source_branch_truncation : ∀ (w : Workflow) (pr : PullRequest),
    sourceBranchEntries (get_payload_pull_request w pr) = [sourceBranchValue w pr]
    ∧ (sourceBranchValue w pr).length ≤ clampedBudget w pr
    ∧ (clampedBudget w pr < (strippedSource w pr).length →
        sourceBranchValue w pr = pyTake (strippedSource w pr) (clampedBudget w pr - 3) ++ "..."
        ∧ pyEndsWith (sourceBranchValue w pr) "..." = true
        ∧ (sourceBranchValue w pr).length = clampedBudget w pr)
    ∧ ((strippedSource w pr).length ≤ clampedBudget w pr →
        sourceBranchValue w pr = strippedSource w pr) := by
  intro w pr
  have key := sourceBranchValue_eq w pr
  have h20 : 20 ≤ clampedBudget w pr := clampedBudget_ge w pr
  have h3 : ("..." : String).length = 3 := rfl
  refine ⟨rfl, ?_, ?_, ?_⟩
  · by_cases hc : clampedBudget w pr < (strippedSource w pr).length
    · rw [key, if_pos hc, String.length_append, length_pyTake, h3]
      omega
    · rw [key, if_neg hc]
      omega
  · intro hc
    refine ⟨by rw [key, if_pos hc], ?_, ?_⟩
    · rw [key, if_pos hc]
      exact endsWith_append _ _
    · rw [key, if_pos hc, String.length_append, length_pyTake, h3]
      omega
  · intro hle
    rw [key, if_neg (by omega)]

/-- C1 (counterexample): with author `"a"`, workflow `"w" #1` (budget
55) and source label `"abc..."`, no truncation occurs (6 ≤ 55) and the
rendered value is the unchanged label — which nonetheless ends in
`"..."`, refuting the claim's "ends in '...' if and only if truncation
occurred". -/
theorem C1_counterexample :
    sourceBranchValue ⟨"w", 1, 1, .SUCCESS, "o/r", "me", "main", "abc"⟩ ⟨"a", 1, "t", "abc..."⟩
        = "abc..."
    ∧ sourceBranchValue ⟨"w", 1, 1, .SUCCESS, "o/r", "me", "main", "abc"⟩ ⟨"a", 1, "t", "abc..."⟩
        = strippedSource ⟨"w", 1, 1, .SUCCESS, "o/r", "me", "main", "abc"⟩ ⟨"a", 1, "t", "abc..."⟩
    ∧ pyEndsWith (sourceBranchValue ⟨"w", 1, 1, .SUCCESS, "o/r", "me", "main", "abc"⟩
        ⟨"a", 1, "t", "abc..."⟩) "..." = true
    ∧ (strippedSource ⟨"w", 1, 1, .SUCCESS, "o/r", "me", "main", "abc"⟩
        ⟨"a", 1, "t", "abc..."⟩).length
        ≤ clampedBudget ⟨"w", 1, 1, .SUCCESS, "o/r", "me", "main", "abc"⟩
            ⟨"a", 1, "t", "abc..."⟩ := by
  refine ⟨rfl, rfl, rfl, by decide⟩

/-- C1 (witness): a long source label is truncated: the rendered value
ends in `"..."` and has length exactly the clamped budget (here the raw
budget 5 is clamped up to 20). -/
theorem C1_witness :
    pyEndsWith (sourceBranchValue ⟨"ABCDEFGHIJKLMNOPQRSTUVWXYZ", 1, 1, .SUCCESS, "o/r", "me",
        "main", "abc"⟩ ⟨"abcdefghijklmnopqrstuvwxyz", 1, "t",
        "this-branch-name-is-way-longer-than-twenty"⟩) "..." = true
    ∧ (sourceBranchValue ⟨"ABCDEFGHIJKLMNOPQRSTUVWXYZ", 1, 1, .SUCCESS, "o/r", "me",
        "main", "abc"⟩ ⟨"abcdefghijklmnopqrstuvwxyz", 1, "t",
        "this-branch-name-is-way-longer-than-twenty"⟩).length
      = clampedBudget ⟨"ABCDEFGHIJKLMNOPQRSTUVWXYZ", 1, 1, .SUCCESS, "o/r", "me", "main", "abc"⟩
          ⟨"abcdefghijklmnopqrstuvwxyz", 1, "t",
            "this-branch-name-is-way-longer-than-twenty"⟩ := by
  have h := (C1_source_branch_truncation
    ⟨"ABCDEFGHIJKLMNOPQRSTUVWXYZ", 1, 1, .SUCCESS, "o/r", "me", "main", "abc"⟩
    ⟨"abcdefghijklmnopqrstuvwxyz", 1, "t",
      "this-branch-name-is-way-longer-than-twenty"⟩).2.2.1 (by decide)
  exact ⟨h.2.1, h.2.2⟩

theorem bind_ok_eval {α β : Type} (a : α) (f : α → Except PyError β) :
    (Except.ok a >>= f) = f a := rfl

theorem bind_error_eval {α β : Type} (e : PyError) (f : α → Except PyError β) :
    ((Except.error e : Except PyError α) >>= f) = .error e := rfl

theorem takeStr_head (k a : String) (rest : Arguments) :
    takeStr k ((k, JVal.str a) :: rest)
      = if a = "" then .error (.invalidArgument (invalidMsg k (.str a))) else .ok (a, rest) := by
  by_cases h : a = "" <;>
    simp [takeStr, popField, popArg, convertStr, pyStr, h, bind_ok_eval, bind_error_eval]

theorem takeInt_head (k nstr : String) (rest : Arguments) :
    takeInt k ((k, JVal.str nstr) :: rest)
      = (match pyParseInt nstr with
        | some m => .ok (m, rest)
        | none => .error (.invalidArgument (invalidMsg k (.str nstr)))) := by
  cases h : pyParseInt nstr <;> simp [takeInt, popField, popArg, convertInt, h, bind_ok_eval, bind_error_eval]

theorem takeStatus_head (k sstr : String) (rest : Arguments) :
    takeStatus k ((k, JVal.str sstr) :: rest)
      = (match statusOfName (pyUpper sstr) with
        | some st => .ok (st, rest)
        | none => .error (.invalidArgument (invalidMsg k (.str sstr)))) := by
  cases h : statusOfName (pyUpper sstr) <;> simp [takeStatus, popField, popArg, convertStatus, h, bind_ok_eval, bind_error_eval]

theorem prAllEmpty_iff (a n t s : String) :
    (prFields.all (fun f => isEmptyArg
      [("pr_author_login", JVal.str a), ("pr_number", JVal.str n), ("pr_title", JVal.str t),
       ("pr_source", JVal.str s)] f) = true)
    ↔ (a = "" ∧ n = "" ∧ t = "" ∧ s = "") := by
  show (a == "" && ((n == "") && ((t == "") && ((s == "") && true)))) = true ↔ _
  simp [and_assoc]

/-- C2 (counterexample): with `pr_author_login` mapped to the empty
string and the other three PR fields populated, construction raises
`InvalidArgument` (the empty string fails the zero-length check), not
`MissingArgument` as the claim states. -/
theorem C2_counterexample :
    PullRequest.from_arguments
      [("pr_author_login", .str ""), ("pr_number", .str "1"), ("pr_title", .str "t"),
       ("pr_source", .str "s")]
      = .error (.invalidArgument "invalid value for `pr_author_login`: ")
    ∧ ∀ f : String, PullRequest.from_arguments
      [("pr_author_login", .str ""), ("pr_number", .str "1"), ("pr_title", .str "t"),
       ("pr_source", .str "s")]
      ≠ .error (.missingArgument f) := by
  refine ⟨rfl, fun f h => ?_⟩
  rw [show PullRequest.from_arguments
      [("pr_author_login", .str ""), ("pr_number", .str "1"), ("pr_title", .str "t"),
       ("pr_source", .str "s")]
      = .error (.invalidArgument "invalid value for `pr_author_login`: ") from rfl] at h
  exact absurd (Except.error.inj h) (by simp)

/-- C2 (amended): `PullRequest` construction from the four mapped PR
fields is all-or-nothing: if every field maps to the empty string the
result is `None` with the mapping untouched; if only some are empty,
construction raises an `InvalidArgument` condition (raised for the
first field whose conversion fails — for an empty string field, the
field itself), and a partially-filled context is never returned. -/
theorem C2_pr_all_or_nothing : ∀ (a n t s : String),
    (a = "" ∧ n = "" ∧ t = "" ∧ s = "" →
      PullRequest.from_arguments
        [("pr_author_login", .str a), ("pr_number", .str n), ("pr_title", .str t),
         ("pr_source", .str s)]
      = .ok (none, [("pr_author_login", .str a), ("pr_number", .str n), ("pr_title", .str t),
         ("pr_source", .str s)]))
    ∧ ((a = "" ∨ n = "" ∨ t = "" ∨ s = "") ∧ ¬(a = "" ∧ n = "" ∧ t = "" ∧ s = "") →
      PullRequest.from_arguments
        [("pr_author_login", .str a), ("pr_number", .str n), ("pr_title", .str t),
         ("pr_source", .str s)]
      = .error (.invalidArgument
          (if a = "" then invalidMsg "pr_author_login" (.str a)
           else if pyParseInt n = none then invalidMsg "pr_number" (.str n)
           else if t = "" then invalidMsg "pr_title" (.str t)
           else invalidMsg "pr_source" (.str s)))) := by
  intro a n t s
  constructor
  · rintro ⟨ha, hn, ht, hs⟩
    subst ha; subst hn; subst ht; subst hs
    rfl
  · rintro ⟨hsome, hne⟩
    unfold PullRequest.from_arguments
    rw [if_neg (fun hh => hne ((prAllEmpty_iff a n t s).mp hh))]
    rw [takeStr_head]
    by_cases ha : a = ""
    · rw [if_pos ha, bind_error_eval]
      simp [ha]
    · rw [if_neg ha, bind_ok_eval]
      dsimp only
      rw [takeInt_head]
      cases hn2 : pyParseInt n with
      | none =>
        rw [bind_error_eval]
        simp [ha]
      | some k =>
        rw [bind_ok_eval]
        dsimp only
        rw [takeStr_head]
        by_cases ht : t = ""
        · rw [if_pos ht, bind_error_eval]
          simp [ha, ht]
        · rw [if_neg ht, bind_ok_eval]
          dsimp only
          rw [takeStr_head]
          by_cases hs : s = ""
          · rw [if_pos hs, bind_error_eval]
            simp [ha, ht]
          · exfalso
            rcases hsome with h | h | h | h
            · exact ha h
            · rw [h, show pyParseInt "" = none by decide] at hn2
              exact Option.noConfusion hn2
            · exact ht h
            · exact hs h

/-- C2 (witness): one empty PR field among populated ones yields an
`InvalidArgument` condition naming exactly that field (`pr_title`, the
first field whose conversion fails here). -/
theorem C2_witness :
    PullRequest.from_arguments
      [("pr_author_login", .str "alice"), ("pr_number", .str "7"), ("pr_title", .str ""),
       ("pr_source", .str "feat")]
      = .error (.invalidArgument "invalid value for `pr_title`: ") := by
  have h := (C2_pr_all_or_nothing "alice" "7" "" "feat").2
    (by refine ⟨Or.inr (Or.inr (Or.inl rfl)), ?_⟩; rintro ⟨hx, -⟩; exact absurd hx (by decide))
  rw [h]
  rfl

theorem statusOfName_some_iff (u : String) :
    (∃ st, statusOfName u = some st)
      ↔ (u = "SUCCESS" ∨ u = "FAILURE" ∨ u = "CANCELLED") := by
  unfold statusOfName
  split_ifs with h1 h2 h3 <;> simp_all

/-- C7: status tokens are accepted exactly when their upper-cased form
is one of the three member names (so acceptance is case-insensitive);
a failing integer parse or unrecognized status token raises an
`InvalidArgument` condition whose message names the field and the
offending raw value; and if `Workflow` construction fails, the whole
action run fails with that exception and performs no network call. -/
theorem C7_conversion_errors :
    (∀ f s : String, (∃ st, convertStatus f (.str s) = .ok st)
      ↔ (pyUpper s = "SUCCESS" ∨ pyUpper s = "FAILURE" ∨ pyUpper s = "CANCELLED"))
    ∧ (∀ f s : String, statusOfName (pyUpper s) = none →
        convertStatus f (.str s) = .error (.invalidArgument (invalidMsg f (.str s))))
    ∧ (∀ f s : String, pyParseInt s = none →
        convertInt f (.str s) = .error (.invalidArgument (invalidMsg f (.str s))))
    ∧ (∀ (parse : String → Except Unit JVal) (args : Arguments) (dry : Bool) (r : HttpResponse)
        (e : PyError), Workflow.from_arguments args = .error e →
        runAction parse args dry r = .error e
        ∧ networkCall (runAction parse args dry r) = none) := by
  refine ⟨?_, ?_, ?_, ?_⟩
  · intro f s
    rw [← statusOfName_some_iff]
    cases h : statusOfName (pyUpper s) with
    | none => simp [convertStatus, h]
    | some st => simp [convertStatus, h]
  · intro f s h
    simp [convertStatus, h]
  · intro f s h
    simp [convertInt, h]
  · intro parse args dry r e h
    unfold runAction
    rw [h, bind_error_eval]
    exact ⟨rfl, rfl⟩

/-- C7 (witness): `"cancelled"` is accepted case-insensitively; the
non-numeric run id `"abc"` yields `InvalidArgument` naming the field
and the raw value; a mapping with a bad run id makes the whole run fail
with no network call. -/
theorem C7_witness :
    (∃ st, convertStatus "status" (.str "cancelled") = .ok st)
    ∧ convertInt "run_id" (.str "abc")
        = .error (.invalidArgument "invalid value for `run_id`: abc")
    ∧ networkCall (runAction (fun _ => .error ())
        [("workflow_name", .str "CI"), ("run_id", .str "abc")] false ⟨200, "OK"⟩) = none := by
  refine ⟨(C7_conversion_errors.1 "status" "cancelled").mpr ?_, ?_, ?_⟩
  · right; right; decide
  · exact C7_conversion_errors.2.2.1 "run_id" "abc" (by decide)
  · exact (C7_conversion_errors.2.2.2 (fun _ => .error ())
      [("workflow_name", .str "CI"), ("run_id", .str "abc")] false ⟨200, "OK"⟩
      (.invalidArgument "invalid value for `run_id`: abc") (by rfl)).2

theorem lookupArg_cons (p : String × JVal) (tl : Arguments) (k : String) :
    lookupArg (p :: tl) k = if p.1 == k then some p.2 else lookupArg tl k := by
  simp only [lookupArg, List.find?]
  cases h : p.1 == k <;> simp [h]

theorem lookupArg_notMem_none (k : String) (args : Arguments)
    (h : k ∉ args.map Prod.fst) : lookupArg args k = none := by
  induction args with
  | nil => rfl
  | cons p tl ih =>
    simp only [List.map_cons, List.mem_cons, not_or] at h
    rw [lookupArg_cons,
      if_neg (show ¬(p.1 == k) = true by
        simp only [beq_iff_eq]
        exact fun hc => h.1 hc.symm)]
    exact ih h.2

theorem popArg_keys_incl (key : String) (args : Arguments) :
    ∀ k ∈ (popArg key args).2.map Prod.fst, k ∈ args.map Prod.fst := by
  induction args with
  | nil => intro k hk; simp [popArg] at hk
  | cons p tl ih =>
    intro k hk
    by_cases hpk : p.1 == key
    · simp only [popArg, if_pos hpk] at hk
      exact List.mem_cons_of_mem _ hk
    · simp only [popArg, if_neg hpk, List.map_cons, List.mem_cons] at hk
      rcases hk with hk | hk
      · simp [hk]
      · exact List.mem_cons_of_mem _ (ih k hk)

theorem popArg_some_facts (key : String) (v : JVal) :
    ∀ (args rest : Arguments), popArg key args = (some v, rest) → keysNodup args →
      keysNodup rest ∧ lookupArg rest key = none
      ∧ (∀ k, k ≠ key → lookupArg rest k = lookupArg args k) := by
  intro args
  induction args with
  | nil => intro rest h; simp [popArg] at h
  | cons p tl ih =>
    intro rest h hnd
    have hnd2 : keysNodup tl ∧ p.1 ∉ tl.map Prod.fst := by
      unfold keysNodup at hnd ⊢
      simp only [List.map_cons, List.nodup_cons] at hnd
      exact ⟨hnd.2, hnd.1⟩
    by_cases hpk : p.1 == key
    · simp only [popArg, if_pos hpk] at h
      have hkey : p.1 = key := by simpa using hpk
      have hte : tl = rest := congrArg Prod.snd h
      subst hte
      refine ⟨hnd2.1, ?_, ?_⟩
      · exact lookupArg_notMem_none key tl (hkey ▸ hnd2.2)
      · intro k hk
        rw [lookupArg_cons,
          if_neg (show ¬(p.1 == k) = true by
            simp only [beq_iff_eq, hkey]
            exact fun hc => hk hc.symm)]
    · simp only [popArg, if_neg hpk] at h
      have h1 : popArg key tl = (some v, (popArg key tl).2) := by
        have := congrArg Prod.fst h
        simp at this
        rw [Prod.ext_iff]
        exact ⟨this, rfl⟩
      have hrest : rest = p :: (popArg key tl).2 := by
        have := congrArg Prod.snd h
        simp at this
        exact this.symm
      obtain ⟨ihnd, ihlk, ihfr⟩ := ih (popArg key tl).2 h1 hnd2.1
      subst hrest
      refine ⟨?_, ?_, ?_⟩
      · unfold keysNodup
        simp only [List.map_cons, List.nodup_cons]
        exact ⟨fun hc => hnd2.2 (popArg_keys_incl key tl p.1 hc), ihnd⟩
      · rw [lookupArg_cons, if_neg hpk]
        exact ihlk
      · intro k hk
        rw [lookupArg_cons, lookupArg_cons]
        by_cases hp2 : p.1 == k
        · rw [if_pos hp2, if_pos hp2]
        · rw [if_neg hp2, if_neg hp2]
          exact ihfr k hk

theorem popField_ok {k : String} {args : Arguments} {v : JVal} {rest : Arguments}
    (h : popField k args = .ok (v, rest)) : popArg k args = (some v, rest) := by
  unfold popField at h
  rcases hp : popArg k args with ⟨o, r⟩
  rw [hp] at h
  cases o with
  | none => simp at h
  | some w => cases w <;> simp_all

theorem takeStr_ok {k : String} {args : Arguments} {s : String} {rest : Arguments}
    (h : takeStr k args = .ok (s, rest)) :
    s ≠ "" ∧ ∃ v, popArg k args = (some v, rest) := by
  unfold takeStr at h
  cases hp : popField k args with
  | error e =>
    rw [hp, bind_error_eval] at h
    exact absurd h (by simp)
  | ok p =>
    obtain ⟨v, r⟩ := p
    rw [hp, bind_ok_eval] at h
    dsimp only at h
    unfold convertStr at h
    by_cases hs : pyStr v = ""
    · rw [if_pos hs, bind_error_eval] at h
      exact absurd h (by simp)
    · rw [if_neg hs, bind_ok_eval] at h
      have hinj := Except.ok.inj h
      have hsv : pyStr v = s := congrArg Prod.fst hinj
      have hr : r = rest := congrArg Prod.snd hinj
      exact ⟨hsv ▸ hs, v, hr ▸ popField_ok hp⟩

theorem takeInt_ok {k : String} {args : Arguments} {n : Int} {rest : Arguments}
    (h : takeInt k args = .ok (n, rest)) : ∃ v, popArg k args = (some v, rest) := by
  unfold takeInt at h
  cases hp : popField k args with
  | error e =>
    rw [hp, bind_error_eval] at h
    exact absurd h (by simp)
  | ok p =>
    obtain ⟨v, r⟩ := p
    rw [hp, bind_ok_eval] at h
    dsimp only at h
    cases hc : convertInt k v with
    | error e =>
      rw [hc, bind_error_eval] at h
      exact absurd h (by simp)
    | ok m =>
      rw [hc, bind_ok_eval] at h
      have hr : r = rest := congrArg Prod.snd (Except.ok.inj h)
      exact ⟨v, hr ▸ popField_ok hp⟩

theorem takeStatus_ok {k : String} {args : Arguments} {st : WorkflowStatus} {rest : Arguments}
    (h : takeStatus k args = .ok (st, rest)) : ∃ v, popArg k args = (some v, rest) := by
  unfold takeStatus at h
  cases hp : popField k args with
  | error e =>
    rw [hp, bind_error_eval] at h
    exact absurd h (by simp)
  | ok p =>
    obtain ⟨v, r⟩ := p
    rw [hp, bind_ok_eval] at h
    dsimp only at h
    cases hc : convertStatus k v with
    | error e =>
      rw [hc, bind_error_eval] at h
      exact absurd h (by simp)
    | ok m =>
      rw [hc, bind_ok_eval] at h
      have hr : r = rest := congrArg Prod.snd (Except.ok.inj h)
      exact ⟨v, hr ▸ popField_ok hp⟩

theorem workflow_ok_facts {args : Arguments} {w : Workflow} {rest : Arguments}
    (h : Workflow.from_arguments args = .ok (w, rest)) :
    (w.workflow_name ≠ "" ∧ w.repository ≠ "" ∧ w.actor ≠ "" ∧ w.ref ≠ "" ∧ w.sha ≠ "")
    ∧ (keysNodup args →
        keysNodup rest
        ∧ (∀ f ∈ workflowFields, lookupArg rest f = none)
        ∧ (∀ k, k ∉ workflowFields → lookupArg rest k = lookupArg args k)) := by
  unfold Workflow.from_arguments at h
  cases h1 : takeStr "workflow_name" args with
  | error e => rw [h1, bind_error_eval] at h; exact absurd h (by simp)
  | ok p1 =>
  obtain ⟨x1, a1⟩ := p1
  rw [h1, bind_ok_eval] at h; dsimp only at h
  cases h2 : takeInt "run_id" a1 with
  | error e => rw [h2, bind_error_eval] at h; exact absurd h (by simp)
  | ok p2 =>
  obtain ⟨x2, a2⟩ := p2
  rw [h2, bind_ok_eval] at h; dsimp only at h
  cases h3 : takeInt "run_number" a2 with
  | error e => rw [h3, bind_error_eval] at h; exact absurd h (by simp)
  | ok p3 =>
  obtain ⟨x3, a3⟩ := p3
  rw [h3, bind_ok_eval] at h; dsimp only at h
  cases h4 : takeStatus "status" a3 with
  | error e => rw [h4, bind_error_eval] at h; exact absurd h (by simp)
  | ok p4 =>
  obtain ⟨x4, a4⟩ := p4
  rw [h4, bind_ok_eval] at h; dsimp only at h
  cases h5 : takeStr "repository" a4 with
  | error e => rw [h5, bind_error_eval] at h; exact absurd h (by simp)
  | ok p5 =>
  obtain ⟨x5, a5⟩ := p5
  rw [h5, bind_ok_eval] at h; dsimp only at h
  cases h6 : takeStr "actor" a5 with
  | error e => rw [h6, bind_error_eval] at h; exact absurd h (by simp)
  | ok p6 =>
  obtain ⟨x6, a6⟩ := p6
  rw [h6, bind_ok_eval] at h; dsimp only at h
  cases h7 : takeStr "ref" a6 with
  | error e => rw [h7, bind_error_eval] at h; exact absurd h (by simp)
  | ok p7 =>
  obtain ⟨x7, a7⟩ := p7
  rw [h7, bind_ok_eval] at h; dsimp only at h
  cases h8 : takeStr "sha" a7 with
  | error e => rw [h8, bind_error_eval] at h; exact absurd h (by simp)
  | ok p8 =>
  obtain ⟨x8, a8⟩ := p8
  rw [h8, bind_ok_eval] at h; dsimp only at h
  have hp := Except.ok.inj h
  injection hp with hw hr
  subst hw; subst hr
  obtain ⟨hne1, v1, hp1⟩ := takeStr_ok h1
  obtain ⟨v2, hp2⟩ := takeInt_ok h2
  obtain ⟨v3, hp3⟩ := takeInt_ok h3
  obtain ⟨v4, hp4⟩ := takeStatus_ok h4
  obtain ⟨hne5, v5, hp5⟩ := takeStr_ok h5
  obtain ⟨hne6, v6, hp6⟩ := takeStr_ok h6
  obtain ⟨hne7, v7, hp7⟩ := takeStr_ok h7
  obtain ⟨hne8, v8, hp8⟩ := takeStr_ok h8
  refine ⟨⟨hne1, hne5, hne6, hne7, hne8⟩, ?_⟩
  intro hnd
  obtain ⟨nd1, lk1, fr1⟩ := popArg_some_facts _ v1 _ _ hp1 hnd
  obtain ⟨nd2, lk2, fr2⟩ := popArg_some_facts _ v2 _ _ hp2 nd1
  obtain ⟨nd3, lk3, fr3⟩ := popArg_some_facts _ v3 _ _ hp3 nd2
  obtain ⟨nd4, lk4, fr4⟩ := popArg_some_facts _ v4 _ _ hp4 nd3
  obtain ⟨nd5, lk5, fr5⟩ := popArg_some_facts _ v5 _ _ hp5 nd4
  obtain ⟨nd6, lk6, fr6⟩ := popArg_some_facts _ v6 _ _ hp6 nd5
  obtain ⟨nd7, lk7, fr7⟩ := popArg_some_facts _ v7 _ _ hp7 nd6
  obtain ⟨nd8, lk8, fr8⟩ := popArg_some_facts _ v8 _ _ hp8 nd7
  refine ⟨nd8, ?_, ?_⟩
  · intro f hf
    simp only [workflowFields, List.mem_cons, List.not_mem_nil, or_false] at hf
    rcases hf with rfl | rfl | rfl | rfl | rfl | rfl | rfl | rfl
    · rw [fr8 _ (by decide), fr7 _ (by decide), fr6 _ (by decide), fr5 _ (by decide),
        fr4 _ (by decide), fr3 _ (by decide), fr2 _ (by decide)]
      exact lk1
    · rw [fr8 _ (by decide), fr7 _ (by decide), fr6 _ (by decide), fr5 _ (by decide),
        fr4 _ (by decide), fr3 _ (by decide)]
      exact lk2
    · rw [fr8 _ (by decide), fr7 _ (by decide), fr6 _ (by decide), fr5 _ (by decide),
        fr4 _ (by decide)]
      exact lk3
    · rw [fr8 _ (by decide), fr7 _ (by decide), fr6 _ (by decide), fr5 _ (by decide)]
      exact lk4
    · rw [fr8 _ (by decide), fr7 _ (by decide), fr6 _ (by decide)]
      exact lk5
    · rw [fr8 _ (by decide), fr7 _ (by decide)]
      exact lk6
    · rw [fr8 _ (by decide)]
      exact lk7
    · exact lk8
  · intro k hk
    simp only [workflowFields, List.mem_cons, List.not_mem_nil, or_false, not_or] at hk
    obtain ⟨n1, n2, n3, n4, n5, n6, n7, n8⟩ := hk
    rw [fr8 _ n8, fr7 _ n7, fr6 _ n6, fr5 _ n5, fr4 _ n4, fr3 _ n3, fr2 _ n2, fr1 _ n1]

theorem webhook_ok_facts {args : Arguments} {wh : Webhook} {rest : Arguments}
    (h : Webhook.from_arguments args = .ok (wh, rest)) :
    wh.webhook_token ≠ ""
    ∧ (keysNodup args →
        keysNodup rest
        ∧ (∀ f ∈ webhookFields, lookupArg rest f = none)
        ∧ (∀ k, k ∉ webhookFields → lookupArg rest k = lookupArg args k)) := by
  unfold Webhook.from_arguments at h
  cases h1 : takeInt "webhook_id" args with
  | error e => rw [h1, bind_error_eval] at h; exact absurd h (by simp)
  | ok p1 =>
  obtain ⟨x1, a1⟩ := p1
  rw [h1, bind_ok_eval] at h; dsimp only at h
  cases h2 : takeStr "webhook_token" a1 with
  | error e => rw [h2, bind_error_eval] at h; exact absurd h (by simp)
  | ok p2 =>
  obtain ⟨x2, a2⟩ := p2
  rw [h2, bind_ok_eval] at h; dsimp only at h
  have hp := Except.ok.inj h
  injection hp with hw hr
  subst hw; subst hr
  obtain ⟨v1, hp1⟩ := takeInt_ok h1
  obtain ⟨hne2, v2, hp2⟩ := takeStr_ok h2
  refine ⟨hne2, ?_⟩
  intro hnd
  obtain ⟨nd1, lk1, fr1⟩ := popArg_some_facts _ v1 _ _ hp1 hnd
  obtain ⟨nd2, lk2, fr2⟩ := popArg_some_facts _ v2 _ _ hp2 nd1
  refine ⟨nd2, ?_, ?_⟩
  · intro f hf
    simp only [webhookFields, List.mem_cons, List.not_mem_nil, or_false] at hf
    rcases hf with rfl | rfl
    · rw [fr2 _ (by decide)]
      exact lk1
    · exact lk2
  · intro k hk
    simp only [webhookFields, List.mem_cons, List.not_mem_nil, or_false, not_or] at hk
    obtain ⟨n1, n2⟩ := hk
    rw [fr2 _ n2, fr1 _ n1]

theorem pullrequest_ok_facts {args : Arguments} {pr : PullRequest} {rest : Arguments}
    (h : PullRequest.from_arguments args = .ok (some pr, rest)) :
    (pr.pr_author_login ≠ "" ∧ pr.pr_title ≠ "" ∧ pr.pr_source ≠ "")
    ∧ (keysNodup args →
        keysNodup rest
        ∧ (∀ f ∈ prFields, lookupArg rest f = none)
        ∧ (∀ k, k ∉ prFields → lookupArg rest k = lookupArg args k)) := by
  unfold PullRequest.from_arguments at h
  by_cases hc : (prFields.all (fun f => isEmptyArg args f)) = true
  · rw [if_pos hc] at h
    exact absurd (congrArg Prod.fst (Except.ok.inj h)) (by simp)
  · rw [if_neg hc] at h
    cases h1 : takeStr "pr_author_login" args with
    | error e => rw [h1, bind_error_eval] at h; exact absurd h (by simp)
    | ok p1 =>
    obtain ⟨x1, a1⟩ := p1
    rw [h1, bind_ok_eval] at h; dsimp only at h
    cases h2 : takeInt "pr_number" a1 with
    | error e => rw [h2, bind_error_eval] at h; exact absurd h (by simp)
    | ok p2 =>
    obtain ⟨x2, a2⟩ := p2
    rw [h2, bind_ok_eval] at h; dsimp only at h
    cases h3 : takeStr "pr_title" a2 with
    | error e => rw [h3, bind_error_eval] at h; exact absurd h (by simp)
    | ok p3 =>
    obtain ⟨x3, a3⟩ := p3
    rw [h3, bind_ok_eval] at h; dsimp only at h
    cases h4 : takeStr "pr_source" a3 with
    | error e => rw [h4, bind_error_eval] at h; exact absurd h (by simp)
    | ok p4 =>
    obtain ⟨x4, a4⟩ := p4
    rw [h4, bind_ok_eval] at h; dsimp only at h
    have hp := Except.ok.inj h
    injection hp with hw hr
    have hpr : PullRequest.mk x1 x2 x3 x4 = pr := Option.some.inj hw
    subst hpr; subst hr
    obtain ⟨hne1, v1, hp1⟩ := takeStr_ok h1
    obtain ⟨v2, hp2⟩ := takeInt_ok h2
    obtain ⟨hne3, v3, hp3⟩ := takeStr_ok h3
    obtain ⟨hne4, v4, hp4⟩ := takeStr_ok h4
    refine ⟨⟨hne1, hne3, hne4⟩, ?_⟩
    intro hnd
    obtain ⟨nd1, lk1, fr1⟩ := popArg_some_facts _ v1 _ _ hp1 hnd
    obtain ⟨nd2, lk2, fr2⟩ := popArg_some_facts _ v2 _ _ hp2 nd1
    obtain ⟨nd3, lk3, fr3⟩ := popArg_some_facts _ v3 _ _ hp3 nd2
    obtain ⟨nd4, lk4, fr4⟩ := popArg_some_facts _ v4 _ _ hp4 nd3
    refine ⟨nd4, ?_, ?_⟩
    · intro f hf
      simp only [prFields, List.mem_cons, List.not_mem_nil, or_false] at hf
      rcases hf with rfl | rfl | rfl | rfl
      · rw [fr4 _ (by decide), fr3 _ (by decide), fr2 _ (by decide)]
        exact lk1
      · rw [fr4 _ (by decide), fr3 _ (by decide)]
        exact lk2
      · rw [fr4 _ (by decide)]
        exact lk3
      · exact lk4
    · intro k hk
      simp only [prFields, List.mem_cons, List.not_mem_nil, or_false, not_or] at hk
      obtain ⟨n1, n2, n3, n4⟩ := hk
      rw [fr4 _ n4, fr3 _ n3, fr2 _ n2, fr1 _ n1]

/-- C8: a successfully constructed structure never holds an empty
string field (for `Workflow`, `Webhook`, and a present `PullRequest`);
a key present with an empty-string value raises `InvalidArgument`
(shown for `workflow_name`), while the same mapping with the key absent
raises `MissingArgument` for that field — the two cases are
distinguished. -/
theorem C8_empty_vs_missing :
    (∀ (args : Arguments) (w : Workflow) (rest : Arguments),
      Workflow.from_arguments args = .ok (w, rest) →
      w.workflow_name ≠ "" ∧ w.repository ≠ "" ∧ w.actor ≠ "" ∧ w.ref ≠ "" ∧ w.sha ≠ "")
    ∧ (∀ (args : Arguments) (wh : Webhook) (rest : Arguments),
      Webhook.from_arguments args = .ok (wh, rest) → wh.webhook_token ≠ "")
    ∧ (∀ (args : Arguments) (pr : PullRequest) (rest : Arguments),
      PullRequest.from_arguments args = .ok (some pr, rest) →
      pr.pr_author_login ≠ "" ∧ pr.pr_title ≠ "" ∧ pr.pr_source ≠ "")
    ∧ Workflow.from_arguments
        [("workflow_name", .str ""), ("run_id", .str "1"), ("run_number", .str "2"),
         ("status", .str "success"), ("repository", .str "o/r"), ("actor", .str "me"),
         ("ref", .str "main"), ("sha", .str "abc")]
        = .error (.invalidArgument "invalid value for `workflow_name`: ")
    ∧ Workflow.from_arguments
        [("run_id", .str "1"), ("run_number", .str "2"),
         ("status", .str "success"), ("repository", .str "o/r"), ("actor", .str "me"),
         ("ref", .str "main"), ("sha", .str "abc")]
        = .error (.missingArgument "workflow_name") :=
  ⟨fun _ _ _ h => (workflow_ok_facts h).1,
   fun _ _ _ h => (webhook_ok_facts h).1,
   fun _ _ _ h => (pullrequest_ok_facts h).1,
   rfl, rfl⟩

/-- C8 (witness): a fully populated mapping constructs a `Workflow`
whose string fields are all nonempty. -/
theorem C8_witness :
    (⟨"CI", 1, 2, .SUCCESS, "o/r", "me", "main", "abcdef1234"⟩ : Workflow).workflow_name ≠ ""
    ∧ (⟨"CI", 1, 2, .SUCCESS, "o/r", "me", "main", "abcdef1234"⟩ : Workflow).repository ≠ ""
    ∧ (⟨"CI", 1, 2, .SUCCESS, "o/r", "me", "main", "abcdef1234"⟩ : Workflow).actor ≠ ""
    ∧ (⟨"CI", 1, 2, .SUCCESS, "o/r", "me", "main", "abcdef1234"⟩ : Workflow).ref ≠ ""
    ∧ (⟨"CI", 1, 2, .SUCCESS, "o/r", "me", "main", "abcdef1234"⟩ : Workflow).sha ≠ "" :=
  C8_empty_vs_missing.1
    [("workflow_name", .str "CI"), ("run_id", .str "1"), ("run_number", .str "2"),
     ("status", .str "success"), ("repository", .str "o/r"), ("actor", .str "me"),
     ("ref", .str "main"), ("sha", .str "abcdef1234")]
    ⟨"CI", 1, 2, .SUCCESS, "o/r", "me", "main", "abcdef1234"⟩ [] rfl

/-- C10: the three dataclasses consume pairwise disjoint key sets, and
on the successful `__main__` sequence (Workflow, then Webhook, then
PullRequest from one duplicate-free mapping) each construction pops
exactly its own field keys: after each step the consumed keys are gone
and every other key is bound exactly as before. -/
theorem C10_argument_consumption :
    ((workflowFields.all (fun f => !webhookFields.contains f && !prFields.contains f))
      && webhookFields.all (fun f => !prFields.contains f)) = true
    ∧ ∀ (args : Arguments) (w : Workflow) (a1 : Arguments) (wh : Webhook) (a2 : Arguments)
        (pr : PullRequest) (a3 : Arguments),
      keysNodup args →
      Workflow.from_arguments args = .ok (w, a1) →
      Webhook.from_arguments a1 = .ok (wh, a2) →
      PullRequest.from_arguments a2 = .ok (some pr, a3) →
      (∀ f ∈ workflowFields, lookupArg a1 f = none)
      ∧ (∀ k, k ∉ workflowFields → lookupArg a1 k = lookupArg args k)
      ∧ (∀ f, f ∈ workflowFields ∨ f ∈ webhookFields → lookupArg a2 f = none)
      ∧ (∀ k, k ∉ workflowFields → k ∉ webhookFields → lookupArg a2 k = lookupArg args k)
      ∧ (∀ f, f ∈ workflowFields ∨ f ∈ webhookFields ∨ f ∈ prFields → lookupArg a3 f = none)
      ∧ (∀ k, k ∉ workflowFields → k ∉ webhookFields → k ∉ prFields →
          lookupArg a3 k = lookupArg args k) := by
  refine ⟨by decide, ?_⟩
  intro args w a1 wh a2 pr a3 hnd h1 h2 h3
  have hdisjWW : ∀ f ∈ workflowFields, f ∉ webhookFields := by decide
  have hdisjWP : ∀ f ∈ workflowFields, f ∉ prFields := by decide
  have hdisjHP : ∀ f ∈ webhookFields, f ∉ prFields := by decide
  obtain ⟨-, hf1⟩ := workflow_ok_facts h1
  obtain ⟨nd1, lkW, frW⟩ := hf1 hnd
  obtain ⟨-, hf2⟩ := webhook_ok_facts h2
  obtain ⟨nd2, lkWh, frWh⟩ := hf2 nd1
  obtain ⟨-, hf3⟩ := pullrequest_ok_facts h3
  obtain ⟨nd3, lkPr, frPr⟩ := hf3 nd2
  refine ⟨lkW, frW, ?_, ?_, ?_, ?_⟩
  · intro f hf
    rcases hf with hf | hf
    · rw [frWh f (hdisjWW f hf)]
      exact lkW f hf
    · exact lkWh f hf
  · intro k hk1 hk2
    rw [frWh k hk2, frW k hk1]
  · intro f hf
    rcases hf with hf | hf | hf
    · rw [frPr f (hdisjWP f hf), frWh f (hdisjWW f hf)]
      exact lkW f hf
    · rw [frPr f (hdisjHP f hf)]
      exact lkWh f hf
    · exact lkPr f hf
  · intro k hk1 hk2 hk3
    rw [frPr k hk3, frWh k hk2, frW k hk1]

/-- C10 (witness): on a concrete 15-key mapping the sequence consumes
the fourteen dataclass keys and leaves `extra` bound unchanged. -/
theorem C10_witness :
    lookupArg [("extra", JVal.str "x")] "workflow_name" = none
    ∧ lookupArg [("extra", JVal.str "x")] "webhook_token" = none
    ∧ lookupArg [("extra", JVal.str "x")] "extra"
        = lookupArg
          [("workflow_name", .str "CI"), ("run_id", .str "1"), ("run_number", .str "2"),
           ("status", .str "success"), ("repository", .str "o/r"), ("actor", .str "me"),
           ("ref", .str "main"), ("sha", .str "abcdef1234"), ("webhook_id", .str "5"),
           ("webhook_token", .str "tok"), ("pr_author_login", .str "alice"),
           ("pr_number", .str "7"), ("pr_title", .str "T"), ("pr_source", .str "o:feat"),
           ("extra", .str "x")] "extra" := by
  have h := C10_argument_consumption.2
    [("workflow_name", .str "CI"), ("run_id", .str "1"), ("run_number", .str "2"),
     ("status", .str "success"), ("repository", .str "o/r"), ("actor", .str "me"),
     ("ref", .str "main"), ("sha", .str "abcdef1234"), ("webhook_id", .str "5"),
     ("webhook_token", .str "tok"), ("pr_author_login", .str "alice"),
     ("pr_number", .str "7"), ("pr_title", .str "T"), ("pr_source", .str "o:feat"),
     ("extra", .str "x")]
    ⟨"CI", 1, 2, .SUCCESS, "o/r", "me", "main", "abcdef1234"⟩
    [("webhook_id", .str "5"), ("webhook_token", .str "tok"), ("pr_author_login", .str "alice"),
     ("pr_number", .str "7"), ("pr_title", .str "T"), ("pr_source", .str "o:feat"),
     ("extra", .str "x")]
    ⟨5, "tok"⟩
    [("pr_author_login", .str "alice"), ("pr_number", .str "7"), ("pr_title", .str "T"),
     ("pr_source", .str "o:feat"), ("extra", .str "x")]
    ⟨"alice", 7, "T", "o:feat"⟩
    [("extra", .str "x")]
    (by unfold keysNodup; decide) rfl rfl rfl
  exact ⟨h.2.2.2.2.1 "workflow_name" (by decide),
    h.2.2.2.2.1 "webhook_token" (by decide),
    h.2.2.2.2.2 "extra" (by decide) (by decide) (by decide)⟩

theorem lookupArg_eq_popArg_fst (k : String) (args : Arguments) :
    lookupArg args k = (popArg k args).1 := by
  induction args with
  | nil => rfl
  | cons p tl ih =>
    rw [lookupArg_cons]
    by_cases h : p.1 == k
    · simp [popArg, h]
    · simp [popArg, h, ih]

/-- C9 (amended): `from_payload` delegates to `from_arguments` on the
remaining arguments whenever the payload string fails to parse or
parses to any falsy value — empty object, empty list, `null`, `false`,
`0` or the empty string — after a non-empty list payload is first
replaced by its first element; only a truthy payload (an object, or
anything whose attribute reads succeed) has the four `pr_*` arguments
overwritten from `user.login`, `number`, `title` and `head.label`, with
missing keys defaulting to empty strings. -/
theorem C9_payload_parsing : ∀ (parse : String → Except Unit JVal) (args : Arguments)
    (raw : String), lookupArg args "pull_request_payload" = some (.str raw) →
    (parse (pyDoubleBackslashes raw) = .error () →
      PullRequest.from_payload parse args
        = PullRequest.from_arguments (popArg "pull_request_payload" args).2)
    ∧ (∀ v : JVal, parse (pyDoubleBackslashes raw) = .ok v → (listExtract v).truthy = false →
      PullRequest.from_payload parse args
        = PullRequest.from_arguments (popArg "pull_request_payload" args).2)
    ∧ (∀ (v : JVal) (q : JVal × JVal × JVal × JVal),
        parse (pyDoubleBackslashes raw) = .ok v → (listExtract v).truthy = true →
        extractPRFields (listExtract v) = .ok q →
      PullRequest.from_payload parse args
        = PullRequest.from_arguments
            (setArg (setArg (setArg (setArg (popArg "pull_request_payload" args).2
              "pr_author_login" q.1) "pr_number" q.2.1) "pr_title" q.2.2.1)
              "pr_source" q.2.2.2)) := by
  intro parse args raw hlk
  have hfst : (popArg "pull_request_payload" args).1 = some (.str raw) := by
    rw [← lookupArg_eq_popArg_fst]
    exact hlk
  have hpop : popPayloadKey args = .ok (.str raw, (popArg "pull_request_payload" args).2) := by
    unfold popPayloadKey
    rcases hp : popArg "pull_request_payload" args with ⟨o, r⟩
    rw [hp] at hfst
    simp only at hfst
    subst hfst
    rfl
  refine ⟨?_, ?_, ?_⟩
  · intro hparse
    unfold PullRequest.from_payload
    rw [hpop, bind_ok_eval]
    dsimp only
    rw [bind_ok_eval, hparse]
    simp [listExtract, JVal.truthy]
  · intro v hparse htr
    unfold PullRequest.from_payload
    rw [hpop, bind_ok_eval]
    dsimp only
    rw [bind_ok_eval, hparse]
    dsimp only
    rw [if_pos htr]
  · intro v q hparse htr hext
    unfold PullRequest.from_payload
    rw [hpop, bind_ok_eval]
    dsimp only
    rw [bind_ok_eval, hparse]
    dsimp only
    rw [if_neg (by simp [htr]), hext, bind_ok_eval]

/-- C9 (counterexample): the payload string `"0"` parses to the JSON
number `0` — valid JSON, neither an empty object nor an empty list —
yet the code falls back to the individual `pr_*` arguments (the payload
is falsy), producing a populated context from them, while the claim's
reading (fields taken from the payload's keys, missing keys as empty
strings) would make all four fields empty and yield `None`.  The code
and the claim-worded definition disagree at this input. -/
theorem C9_counterexample :
    PullRequest.from_payload
        (fun s => if s == "0" then Except.ok (JVal.num 0) else Except.error ())
        [("pull_request_payload", .str "0"), ("pr_author_login", .str "alice"),
         ("pr_number", .str "1"), ("pr_title", .str "T"), ("pr_source", .str "feat")]
      = .ok (some ⟨"alice", 1, "T", "feat"⟩, [])
    ∧ fromPayloadClaim
        (fun s => if s == "0" then Except.ok (JVal.num 0) else Except.error ())
        [("pull_request_payload", .str "0"), ("pr_author_login", .str "alice"),
         ("pr_number", .str "1"), ("pr_title", .str "T"), ("pr_source", .str "feat")]
      = .ok (none, [("pr_author_login", .str ""), ("pr_number", .str ""),
         ("pr_title", .str ""), ("pr_source", .str "")])
    ∧ PullRequest.from_payload
        (fun s => if s == "0" then Except.ok (JVal.num 0) else Except.error ())
        [("pull_request_payload", .str "0"), ("pr_author_login", .str "alice"),
         ("pr_number", .str "1"), ("pr_title", .str "T"), ("pr_source", .str "feat")]
      ≠ fromPayloadClaim
        (fun s => if s == "0" then Except.ok (JVal.num 0) else Except.error ())
        [("pull_request_payload", .str "0"), ("pr_author_login", .str "alice"),
         ("pr_number", .str "1"), ("pr_title", .str "T"), ("pr_source", .str "feat")] := by
  refine ⟨rfl, rfl, fun heq => ?_⟩
  rw [show PullRequest.from_payload
        (fun s => if s == "0" then Except.ok (JVal.num 0) else Except.error ())
        [("pull_request_payload", .str "0"), ("pr_author_login", .str "alice"),
         ("pr_number", .str "1"), ("pr_title", .str "T"), ("pr_source", .str "feat")]
      = .ok (some ⟨"alice", 1, "T", "feat"⟩, []) from rfl,
    show fromPayloadClaim
        (fun s => if s == "0" then Except.ok (JVal.num 0) else Except.error ())
        [("pull_request_payload", .str "0"), ("pr_author_login", .str "alice"),
         ("pr_number", .str "1"), ("pr_title", .str "T"), ("pr_source", .str "feat")]
      = .ok (none, [("pr_author_login", .str ""), ("pr_number", .str ""),
         ("pr_title", .str ""), ("pr_source", .str "")]) from rfl] at heq
  exact absurd (congrArg Prod.fst (Except.ok.inj heq)) (by simp)

/-- C9 (witness): an unparseable payload string falls back to the
remaining `pr_*` arguments, which here produce a populated context. -/
theorem C9_witness :
    PullRequest.from_payload (fun _ => Except.error ())
        [("pull_request_payload", .str "notjson"), ("pr_author_login", .str "bob"),
         ("pr_number", .str "2"), ("pr_title", .str "U"), ("pr_source", .str "dev")]
      = PullRequest.from_arguments
        [("pr_author_login", .str "bob"), ("pr_number", .str "2"), ("pr_title", .str "U"),
         ("pr_source", .str "dev")]
    ∧ PullRequest.from_arguments
        [("pr_author_login", .str "bob"), ("pr_number", .str "2"), ("pr_title", .str "U"),
         ("pr_source", .str "dev")]
      = .ok (some ⟨"bob", 2, "U", "dev"⟩, []) :=
  ⟨(C9_payload_parsing (fun _ => Except.error ())
      [("pull_request_payload", .str "notjson"), ("pr_author_login", .str "bob"),
       ("pr_number", .str "2"), ("pr_title", .str "U"), ("pr_source", .str "dev")]
      "notjson" rfl).1 rfl,
   rfl⟩
